import Mathlib

/-!
Shallow embedding of the session-and-booking reconciliation layer of the
bookvenue mobile client, together with proofs about it.

The embedded code comes from:
* `src/api/bookingApi.ts` — `formatTime`, and the booking normalization
  performed inside `bookingApi.getBookings`;
* `src/contexts/AuthContext.tsx` — `loadStoredUser` (session restore);
* the auth-context variant reading only the `user` key (`loadStoredUser`
  in the unnamed context file);
* the service-module axios instance with its 401 response interceptor,
  and `getMyBookings`'s image processing (unnamed service file);
* the bookings screen's `formatTime` (`src/app/(tabs)/bookings.tsx`).

JavaScript builtins used by that code (`parseInt`, `parseFloat`,
`toLowerCase`, `padStart`, `replace(/\\/g,'/')`, string truthiness) are
modelled explicitly below, following ECMA-262 semantics on the relevant
inputs.  `JSON.parse` and `new Date` are kept abstract: the functions that
use them take a decoder / formatter argument, with `none` standing for a
thrown decode error (resp. an invalid date).
-/

/-- Result of a JavaScript numeric computation: a finite number (kept exact
as a rational; the claims checked here never depend on double rounding),
`NaN`, or a signed infinity. -/
inductive JsNum where
  | num (q : Rat)
  | nan
  | posInf
  | negInf
deriving DecidableEq, Repr

/-- JavaScript string truthiness for an optional (possibly `null`/absent)
string: `null`/`undefined` and the empty string are falsy. -/
def jsTruthyOpt (o : Option String) : Bool :=
  match o with
  | none => false
  | some s => s != ""

/-- JavaScript `a || b` on an optional string `a` with string default `b`:
the default is used when `a` is absent or empty. -/
def jsOrString (a : Option String) (b : String) : String :=
  match a with
  | none => b
  | some s => if s = "" then b else s

/-- JavaScript `a || b` on two optional strings (used for
`slot.start_time || slot.startTime`). -/
def jsOrOpt (a b : Option String) : Option String :=
  match a with
  | none => b
  | some s => if s = "" then b else some s

/-- JavaScript `String.prototype.toLowerCase` (ASCII range, which is all
the embedded code feeds it). -/
def jsToLowerCase (s : String) : String :=
  ⟨s.data.map Char.toLower⟩

/-- JavaScript `s.replace(/\\/g, '/')`: every backslash becomes a forward
slash. -/
def jsReplaceBackslash (s : String) : String :=
  ⟨s.data.map (fun c => if c = '\\' then '/' else c)⟩

/-- JavaScript `s.substring(0, 5)` (the embedded code only applies it to
ASCII `HH:MM:SS` strings, where UTF-16 units and code points agree). -/
def jsSubstring05 (s : String) : String :=
  ⟨s.data.take 5⟩

/-- JavaScript `s.startsWith('http')`. -/
def jsStartsWithHttp (s : String) : Bool :=
  match s.data with
  | 'h' :: 't' :: 't' :: 'p' :: _ => true
  | _ => false

/-- JavaScript `s.padStart(2, '0')`. -/
def jsPadStart2 (s : String) : String :=
  if s.length < 2 then String.mk (List.replicate (2 - s.length) '0') ++ s else s

/-- Whitespace skipped by `parseInt` / `parseFloat`. -/
def skipWs : List Char → List Char
  | [] => []
  | c :: rest =>
    if c = ' ' ∨ c = '\t' ∨ c = '\n' ∨ c = '\r' then skipWs rest else c :: rest

/-- Optional leading sign; returns (isNegative, remaining characters). -/
def parseSignChars : List Char → Bool × List Char
  | '-' :: rest => (true, rest)
  | '+' :: rest => (false, rest)
  | l => (false, l)

/-- Numeric value of a list of decimal digits. -/
def digitsVal (ds : List Char) : Nat :=
  ds.foldl (fun a c => 10 * a + (c.toNat - '0'.toNat)) 0

/-- Hexadecimal digit test. -/
def isHexDigitChar (c : Char) : Bool :=
  c.isDigit || ('a' ≤ c && c ≤ 'f') || ('A' ≤ c && c ≤ 'F')

/-- Numeric value of one hexadecimal digit. -/
def hexDigitVal (c : Char) : Nat :=
  if c.isDigit then c.toNat - '0'.toNat
  else if 'a' ≤ c && c ≤ 'f' then c.toNat - 'a'.toNat + 10
  else c.toNat - 'A'.toNat + 10

/-- Numeric value of a list of hexadecimal digits. -/
def hexVal (ds : List Char) : Nat :=
  ds.foldl (fun a c => 16 * a + hexDigitVal c) 0

/-- JavaScript `parseInt(s)` with no radix argument: skip whitespace, read
an optional sign, then the longest prefix of hexadecimal digits after a
`0x`/`0X` prefix, otherwise the longest prefix of decimal digits; `none`
models the `NaN` result when no digit is found. -/
def jsParseInt (s : String) : Option Int :=
  let l1 := skipWs s.data
  let p := parseSignChars l1
  let core : Option Nat :=
    match p.2 with
    | '0' :: c :: rest =>
      if c = 'x' ∨ c = 'X' then
        let hs := (rest.span isHexDigitChar).1
        if hs.isEmpty then none else some (hexVal hs)
      else
        let ds := (p.2.span Char.isDigit).1
        if ds.isEmpty then none else some (digitsVal ds)
    | _ =>
      let ds := (p.2.span Char.isDigit).1
      if ds.isEmpty then none else some (digitsVal ds)
  match core with
  | none => none
  | some n => some (if p.1 then -(n : Int) else (n : Int))

/-- JavaScript `parseFloat(s)`: skip whitespace, optional sign, `Infinity`
or the longest decimal-literal prefix (integer digits, optional fraction,
optional exponent); `JsNum.nan` when no digits are found at all. -/
def jsParseFloat (s : String) : JsNum :=
  let l1 := skipWs s.data
  let p := parseSignChars l1
  match p.2 with
  | 'I' :: 'n' :: 'f' :: 'i' :: 'n' :: 'i' :: 't' :: 'y' :: _ =>
    if p.1 then JsNum.negInf else JsNum.posInf
  | l2 =>
    let ipr := l2.span Char.isDigit
    let fpr : List Char × List Char :=
      match ipr.2 with
      | '.' :: rest => rest.span Char.isDigit
      | _ => ([], ipr.2)
    if ipr.1.isEmpty && fpr.1.isEmpty then JsNum.nan
    else
      let expVal : Int :=
        match fpr.2 with
        | c :: rest =>
          if c = 'e' ∨ c = 'E' then
            let ep := parseSignChars rest
            let eds := (ep.2.span Char.isDigit).1
            if eds.isEmpty then 0
            else if ep.1 then -(digitsVal eds : Int) else (digitsVal eds : Int)
          else 0
        | [] => 0
      -- value = (ip.fp) * 10^expVal, kept exact as a normalized rational
      let base : Nat := digitsVal ipr.1 * 10 ^ fpr.1.length + digitsVal fpr.1
      let numer : Nat := if 0 ≤ expVal then base * 10 ^ expVal.toNat else base
      let den : Nat :=
        if 0 ≤ expVal then 10 ^ fpr.1.length else 10 ^ (fpr.1.length + (-expVal).toNat)
      let v : Rat := mkRat (numer : Int) den
      JsNum.num (if p.1 then -v else v)

/-! ### Embedded repository code -/

/-- Regex test `/^\d{2}:\d{2}$/` from both `formatTime` implementations. -/
def matchHHMM (s : String) : Bool :=
  match s.data with
  | [a, b, c, d, e] => a.isDigit && b.isDigit && c == ':' && d.isDigit && e.isDigit
  | _ => false

/-- Regex test `/^\d{2}:\d{2}:\d{2}$/` from both `formatTime`
implementations. -/
def matchHHMMSS (s : String) : Bool :=
  match s.data with
  | [a, b, c, d, e, f, g, h] =>
    a.isDigit && b.isDigit && c == ':' && d.isDigit && e.isDigit && f == ':' &&
      g.isDigit && h.isDigit
  | _ => false

/-- `formatTime` from `src/api/bookingApi.ts` (lines 6-26): empty input
gives `''`; `HH:MM` is returned as is; `HH:MM:SS` is truncated with
`substring(0, 5)`; otherwise `parseInt` is tried and, when it yields a
number, the result is that number `toString`-ed, `padStart(2, '0')`-ed,
with `':00'` appended; when `parseInt` gives `NaN` the input is returned
unchanged. -/
def formatTime (timeString : String) : String :=
  if timeString = "" then ""
  else if matchHHMM timeString then timeString
  else if matchHHMMSS timeString then jsSubstring05 timeString
  else
    match jsParseInt timeString with
    | some hour => jsPadStart2 (toString hour) ++ ":00"
    | none => timeString

/-- `formatTime` from `src/app/(tabs)/bookings.tsx` (lines 51-75): same
first three branches; otherwise `new Date(timeString)` followed by
`toLocaleTimeString('en-US', {hour:'2-digit', minute:'2-digit',
hour12:false})` inside a `try`.  The builtin pair is abstracted as `fmt`:
`fmt s = some out` models a parseable date whose locale formatting is
`out`; `fmt s = none` models an invalid date, for which ECMA-262/402 make
`toLocaleTimeString` return the string `"Invalid Date"` without throwing,
so the `catch` branch of the source (which would return `timeString`) is
unreachable. -/
def formatTimeScreen (fmt : String → Option String) (timeString : String) : String :=
  if timeString = "" then ""
  else if matchHHMM timeString then timeString
  else if matchHHMMSS timeString then jsSubstring05 timeString
  else
    match fmt timeString with
    | some out => out
    | none => "Invalid Date"

/-- Status normalization from `src/api/bookingApi.ts` line 91:
`(booking.status || 'pending').toLowerCase()`. -/
def normalizeStatus (st : Option String) : String :=
  jsToLowerCase (jsOrString st "pending")

/-- Asset host prefixed onto image paths. -/
def assetHost : String := "https://admin.bookvenue.app/"

/-- Stock fallback image substituted when no image is available
(`src/api/bookingApi.ts` line 84). -/
def fallbackImage : String :=
  "https://images.pexels.com/photos/1263426/pexels-photo-1263426.jpeg?auto=compress&cs=tinysrgb&w=1260&h=750&dpr=2"

/-- Image resolution applied to each decoded image in
`bookingApi.getBookings` (line 70): unconditionally prefix the asset host
after replacing backslashes — there is no already-absolute check. -/
def resolveImg (img : String) : String :=
  assetHost ++ jsReplaceBackslash img

/-- Image resolution applied in the service module's `getMyBookings`
(line 112): paths starting with `http` pass through, others get the asset
host prefixed — with no backslash replacement. -/
def resolveImgMy (img : String) : String :=
  if jsStartsWithHttp img then img else assetHost ++ img

/-- Facility-image computation of `bookingApi.getBookings` (lines 64-85).
`decode` abstracts `JSON.parse` followed by the `.map` over its result:
`none` stands for any exception in that `try` block (non-JSON input, or a
non-array result), which the `catch` absorbs leaving the list empty.
Afterwards a truthy `facility_image` is `unshift`-ed (host-prefixed, with
no backslash replacement), and an empty final list is replaced by the one
stock fallback URL. -/
def processImages (decode : String → Option (List String))
    (images facilityImage : Option String) : List String :=
  let fromImages : List String :=
    match images with
    | none => []
    | some s =>
      if s = "" then []
      else
        match decode s with
        | some l => l.map resolveImg
        | none => []
  let withFeatured : List String :=
    match facilityImage with
    | none => fromImages
    | some f => if f = "" then fromImages else (assetHost ++ f) :: fromImages
  if withFeatured.isEmpty then [fallbackImage] else withFeatured

/-- Raw slot record: the source reads `slot.start_time || slot.startTime`
and `slot.end_time || slot.endTime`. -/
structure RawSlot where
  start_time : Option String
  startTime : Option String
  end_time : Option String
  endTime : Option String
deriving DecidableEq, Repr

/-- Raw booking as consumed by `bookingApi.getBookings` (the backend wire
shape; absent/null fields are `none`). -/
structure RawBooking where
  bookingId : Option Int
  facility : Option String
  facility_slug : Option String
  facility_image : Option String
  images : Option String
  address : Option String
  lat : Option String
  lng : Option String
  court : Option String
  date : Option String
  price : Option String
  status : Option String
  slots : Option (List RawSlot)
deriving DecidableEq, Repr

/-- Coordinates of the canonical venue summary. -/
structure Coordinates where
  latitude : JsNum
  longitude : JsNum
deriving DecidableEq, Repr

/-- Canonical venue summary embedded in a canonical booking. -/
structure Venue where
  id : String
  name : String
  location : String
  type : String
  slug : String
  images : List String
  coordinates : Coordinates
deriving DecidableEq, Repr

/-- Canonical booking produced by `bookingApi.getBookings`. -/
structure CanonBooking where
  id : String
  venue : Venue
  date : Option String
  startTime : String
  endTime : String
  totalAmount : JsNum
  status : String
  slots : Nat
deriving DecidableEq, Repr

/-- One entry of the slot-time array before `.filter(Boolean)`:
`time ? formatTime(time) : null` where `time` is
`slot.start_time || slot.startTime` (resp. the end-time pair). -/
def slotEntry (pick : RawSlot → Option String) (slot : RawSlot) : Option String :=
  match pick slot with
  | some t => if t = "" then none else some (formatTime t)
  | none => none

/-- Joined slot-time string (lines 98-110 of `bookingApi.getBookings`):
map each slot to its formatted time, `filter(Boolean)` (dropping nulls
and empty strings), and join with `', '`; empty input or an empty
filtered list gives `''`. -/
def slotTimes (pick : RawSlot → Option String) (slots : Option (List RawSlot)) : String :=
  match slots with
  | none => ""
  | some l =>
    let filtered := ((l.map (slotEntry pick)).filterMap id).filter (fun t => t != "")
    if filtered.isEmpty then "" else String.intercalate ", " filtered

/-- Selector for `slot.start_time || slot.startTime`. -/
def pickStart (slot : RawSlot) : Option String :=
  jsOrOpt slot.start_time slot.startTime

/-- Selector for `slot.end_time || slot.endTime`. -/
def pickEnd (slot : RawSlot) : Option String :=
  jsOrOpt slot.end_time slot.endTime

/-- The per-record normalization performed inside
`bookingApi.getBookings` (lines 63-136).  `decode` abstracts
`JSON.parse` + string coercion of the images field (see
`processImages`); `rnd` is the value `Math.random().toString()` would
produce, used as the id only when `bookingId` is absent. -/
def processBooking (decode : String → Option (List String)) (rnd : String)
    (b : RawBooking) : CanonBooking :=
  { id :=
      match b.bookingId with
      | some i => toString i
      | none => rnd
    venue :=
      { id := jsOrString b.facility_slug "venue-1"
        name := jsOrString b.facility "Unknown Venue"
        location := jsOrString b.address "Location not available"
        type := jsOrString b.court "Court"
        slug := jsOrString b.facility_slug "venue-1"
        images := processImages decode b.images b.facility_image
        coordinates :=
          { latitude := jsParseFloat (jsOrString b.lat "28.6139")
            longitude := jsParseFloat (jsOrString b.lng "77.2090") } }
    date := b.date
    startTime := slotTimes pickStart b.slots
    endTime := slotTimes pickEnd b.slots
    totalAmount := jsParseFloat (jsOrString b.price "0")
    status := normalizeStatus b.status
    slots :=
      match b.slots with
      | some l => l.length
      | none => 0 }

/-- Shape of `response.data` for `/my-bookings`: the outer `Option` is
`response.data` itself being null/undefined, the inner one the
`bookings` field. -/
structure BookingsResponse where
  bookings : Option (List RawBooking)
deriving Repr

/-- Response handling of `bookingApi.getBookings` (lines 54-136): null
data gives `[]`; `response.data.bookings || []` defaults to `[]`; each
record is normalized with `processBooking`.  `rnds i` supplies the
`Math.random()` sample for the `i`-th record. -/
def getBookingsData (decode : String → Option (List String)) (rnds : Nat → String)
    (respData : Option BookingsResponse) : List CanonBooking :=
  match respData with
  | none => []
  | some d =>
    match d.bookings with
    | none => []
    | some bs =>
      ((List.range bs.length).zip bs).map (fun pr => processBooking decode (rnds pr.1) pr.2)

/-- Images field of a raw booking as the service module's `getMyBookings`
sees it: absent/null, a JSON-encoded string, or already an array. -/
inductive ImagesField where
  | absent
  | str (s : String)
  | arr (l : List String)
deriving DecidableEq, Repr

/-- Image processing of the service module's `getMyBookings` (lines
96-115): a truthy string field is JSON-decoded (`decode`; a decode
exception is caught and leaves the list empty), an array field is taken
as is, anything else gives `[]`; each entry is then resolved with
`resolveImgMy`.  No fallback is substituted when the list is empty. -/
def myBookingsImages (decode : String → Option (List String)) (f : ImagesField) :
    List String :=
  let parsed : List String :=
    match f with
    | ImagesField.absent => []
    | ImagesField.str s => if s = "" then [] else (decode s).getD []
    | ImagesField.arr l => l
  parsed.map resolveImgMy

/-- List handling of the service module's `getMyBookings` (lines 84-118),
restricted to the images field (the source spreads the raw record and
replaces only `images`): a falsy `response.data.bookings` returns `[]`,
otherwise each record's images field is processed. -/
def getMyBookingsData (decode : String → Option (List String))
    (respBookings : Option (List ImagesField)) : List (List String) :=
  match respBookings with
  | none => []
  | some bs => bs.map (myBookingsImages decode)

/-! ### Session store and HTTP clients -/

/-- Persisted key-value storage, restricted to the two keys the embedded
code touches: `user` (JSON-encoded session) and `token`. -/
structure Storage where
  user : Option String
  token : Option String
deriving DecidableEq, Repr

/-- Outcome of a session restore: final persisted storage, final
in-memory session (absent means unauthenticated), and the final loading
flag. -/
structure RestoreResult (U : Type) where
  storage : Storage
  session : Option U
  loading : Bool
deriving DecidableEq, Repr

/-- `loadStoredUser` from `src/contexts/AuthContext.tsx` (lines 48-69):
read both keys; if both are truthy, `JSON.parse` the stored user
(`parse`; `none` models a thrown parse error, whose `catch` clears both
keys); otherwise do nothing.  The in-memory session starts as `null` and
is set only on a successful parse; `finally` clears the loading flag. -/
def loadStoredUser {U : Type} (parse : String → Option U) (st : Storage) :
    RestoreResult U :=
  if jsTruthyOpt st.user && jsTruthyOpt st.token then
    match st.user with
    | some us =>
      match parse us with
      | some u => ⟨st, some u, false⟩
      | none => ⟨⟨none, none⟩, none, false⟩
    | none => ⟨st, none, false⟩
  else ⟨st, none, false⟩

/-- `loadStoredUser` from the unnamed auth-context variant (lines 41-54):
only the `user` key is read; the token is never consulted and storage is
never cleared (a parse failure is only logged). -/
def loadStoredUserLegacy {U : Type} (parse : String → Option U) (st : Storage) :
    RestoreResult U :=
  match st.user with
  | some us =>
    if us = "" then ⟨st, none, false⟩
    else
      match parse us with
      | some u => ⟨st, some u, false⟩
      | none => ⟨st, none, false⟩
  | none => ⟨st, none, false⟩

/-- The two axios instances of the repository: the service module's
(which installs the 401 response interceptor at lines 24-35) and the one
created in `src/api/bookingApi.ts` lines 30-36 (which installs only a
request interceptor). -/
inductive HttpClientInstance where
  | serviceApi
  | bookingApi
deriving DecidableEq, Repr

/-- Effect of each client's response-error path on persisted storage,
given the response status, before the error is re-thrown to the caller
(`Promise.reject`): the service client removes `token` and `user` on 401;
the booking-API client has no response interceptor, so storage is
untouched. -/
def responseErrorStorage (c : HttpClientInstance) (status : Nat) (st : Storage) :
    Storage :=
  match c with
  | HttpClientInstance.serviceApi =>
    if status = 401 then { user := none, token := none } else st
  | HttpClientInstance.bookingApi => st

/-! ### Concrete inputs used by counterexamples and witnesses -/

/-- Raw booking with every field absent. -/
def emptyRawBooking : RawBooking :=
  { bookingId := none, facility := none, facility_slug := none,
    facility_image := none, images := none, address := none, lat := none,
    lng := none, court := none, date := none, price := none, status := none,
    slots := none }

/-- Decoder that always fails (models `JSON.parse` throwing on every
input). -/
def decNone : String → Option (List String) := fun _ => none

/-- Decoder returning a single already-absolute URL (models a raw images
field `"[\x22https://x.com/a.jpg\x22]"` decoding successfully). -/
def decAbs : String → Option (List String) := fun _ => some ["https://x.com/a.jpg"]


/-! ### Helper lemmas shared by the claim theorems -/

/-- The image list of a processed booking is exactly `processImages`
applied to the raw images fields. -/
theorem processBooking_images (decode : String → Option (List String)) (rnd : String)
    (b : RawBooking) :
    (processBooking decode rnd b).venue.images
      = processImages decode b.images b.facility_image := rfl

/-- `processImages` never returns an empty list: an empty intermediate
list is replaced by the stock fallback. -/
theorem processImages_ne_nil (decode : String → Option (List String))
    (images facilityImage : Option String) :
    processImages decode images facilityImage ≠ [] := by
  simp only [processImages]
  split
  · simp
  · rename_i h
    intro hw
    rw [hw] at h
    simp at h

/-! ### Claim theorems -/

/-- Claim C1, counterexample: the raw status `"weird-status"` is not
mapped to `pending` by the normalization in `bookingApi.getBookings` —
it passes through lower-cased, so the canonical status is not confined
to the three enumerated values. -/
theorem claim_C1_counterexample :
    (processBooking decNone "0.5"
        { emptyRawBooking with status := some "weird-status" }).status = "weird-status"
    ∧ "weird-status" ∉ (["pending", "confirmed", "cancelled"] : List String) := by
  decide

/-- Claim C1, amended: the canonical status is the lower-casing of the
raw status when it is present and non-empty, and `pending` when it is
missing or empty; unrecognized raw values pass through lower-cased (so
`"CONFIRMED"` gives `confirmed`, but `"weird-status"` gives
`weird-status`, not `pending`). -/
theorem claim_C1_amended (decode : String → Option (List String)) (rnd : String)
    (b : RawBooking) (s : String) :
    (processBooking decode rnd b).status = normalizeStatus b.status
    ∧ normalizeStatus none = "pending"
    ∧ normalizeStatus (some "") = "pending"
    ∧ normalizeStatus (some "CONFIRMED") = "confirmed"
    ∧ (s ≠ "" → normalizeStatus (some s) = jsToLowerCase s)
    ∧ normalizeStatus (some "weird-status") = "weird-status" := by
  refine ⟨rfl, by decide, by decide, by decide, ?_, by decide⟩
  intro hs
  simp [normalizeStatus, jsOrString, hs]

/-- Claim C1, witness for the amended theorem at `"CONFIRMED"`. -/
theorem claim_C1_witness :
    ("CONFIRMED" : String) ≠ ""
    ∧ normalizeStatus (some "CONFIRMED") = jsToLowerCase "CONFIRMED" :=
  ⟨by decide,
    (claim_C1_amended decNone "r" emptyRawBooking "CONFIRMED").2.2.2.2.1 (by decide)⟩

/-- Claim C2, counterexample: with only the `user` key persisted,
`loadStoredUser` ends unauthenticated but does not clear the persisted
keys — the stored `user` record survives, contradicting the claim that
both keys are cleared. -/
theorem claim_C2_counterexample :
    (loadStoredUser (fun _ => none : String → Option String) ⟨some "u", none⟩).session = none
    ∧ (loadStoredUser (fun _ => none : String → Option String)
        ⟨some "u", none⟩).storage.user = some "u"
    ∧ some "u" ≠ (none : Option String) := by
  decide

/-- Claim C2, amended: when either key is missing (falsy), restore ends
unauthenticated with the persisted storage left untouched; when both are
present and the session parses, restore ends authenticated with exactly
that session; storage is cleared only when both keys are present and
parsing fails.  The legacy auth-context variant never consults the token
at all: a present, parseable `user` record authenticates by itself. -/
theorem claim_C2_amended {U : Type} (parse : String → Option U) (st : Storage) :
    ((jsTruthyOpt st.user = false ∨ jsTruthyOpt st.token = false) →
        loadStoredUser parse st = ⟨st, none, false⟩)
    ∧ (∀ us u, st.user = some us → us ≠ "" → jsTruthyOpt st.token = true →
        parse us = some u → loadStoredUser parse st = ⟨st, some u, false⟩)
    ∧ (∀ us, st.user = some us → us ≠ "" → jsTruthyOpt st.token = true →
        parse us = none → loadStoredUser parse st = ⟨⟨none, none⟩, none, false⟩)
    ∧ (∀ us u, st.user = some us → us ≠ "" → parse us = some u →
        loadStoredUserLegacy parse st = ⟨st, some u, false⟩) := by
  refine ⟨?_, ?_, ?_, ?_⟩
  · intro h
    unfold loadStoredUser
    rcases h with h | h <;> simp [h]
  · intro us u hus hne htok hp
    obtain ⟨su, tok⟩ := st
    have hsu : su = some us := hus
    subst hsu
    unfold loadStoredUser
    simp [jsTruthyOpt, hne, htok, hp]
    exact htok
  · intro us hus hne htok hp
    obtain ⟨su, tok⟩ := st
    have hsu : su = some us := hus
    subst hsu
    unfold loadStoredUser
    simp [jsTruthyOpt, hne, htok, hp]
    exact htok
  · intro us u hus hne hp
    unfold loadStoredUserLegacy
    simp [hus, hne, hp]

/-- Claim C2, witness for the amended theorem: a token-less state stays
untouched and unauthenticated; a complete parseable state authenticates
with the stored session. -/
theorem claim_C2_witness :
    loadStoredUser (fun s => some s) ⟨some "u", none⟩ = ⟨⟨some "u", none⟩, none, false⟩
    ∧ loadStoredUser (fun s => some s) ⟨some "u", some "t"⟩
        = ⟨⟨some "u", some "t"⟩, some "u", false⟩ :=
  ⟨(claim_C2_amended (fun s => some s) ⟨some "u", none⟩).1 (Or.inr rfl),
    (claim_C2_amended (fun s => some s) ⟨some "u", some "t"⟩).2.1 "u" "u" rfl
      (by decide) rfl rfl⟩

/-- Claim C3 (confirmed): every booking normalized by
`bookingApi.getBookings` has a non-empty image list, and a raw booking
whose images field is absent (or fails to decode) and which has no
`facility_image` gets exactly the single stock fallback URL. -/
theorem claim_C3 (decode : String → Option (List String)) (rnd : String) (b : RawBooking) :
    (processBooking decode rnd b).venue.images ≠ []
    ∧ (b.images = none → b.facility_image = none →
        (processBooking decode rnd b).venue.images = [fallbackImage])
    ∧ (∀ s, b.images = some s → decode s = none → b.facility_image = none →
        (processBooking decode rnd b).venue.images = [fallbackImage]) := by
  refine ⟨?_, ?_, ?_⟩
  · rw [processBooking_images]
    exact processImages_ne_nil decode b.images b.facility_image
  · intro h1 h2
    rw [processBooking_images, h1, h2]
    simp [processImages]
  · intro s h1 hdec h2
    rw [processBooking_images, h1, h2]
    by_cases hs : s = "" <;> simp [processImages, hs, hdec]

/-- Claim C3, witness: a booking whose images field fails to decode and
which has no featured image normalizes to the single fallback URL. -/
theorem claim_C3_witness :
    ({ emptyRawBooking with images := some "bad" } : RawBooking).images = some "bad"
    ∧ decNone "bad" = none
    ∧ (processBooking decNone "r"
        { emptyRawBooking with images := some "bad" }).venue.images = [fallbackImage] :=
  ⟨rfl, rfl,
    (claim_C3 decNone "r" { emptyRawBooking with images := some "bad" }).2.2 "bad"
      rfl rfl rfl⟩

/-- Claim C4, counterexample: the normalization is not deterministic —
when `bookingId` is absent the id is `Math.random().toString()`, so two
runs on the same raw booking with different random samples produce
different canonical bookings. -/
theorem claim_C4_counterexample :
    (processBooking decNone "0.1" emptyRawBooking).id = "0.1"
    ∧ (processBooking decNone "0.2" emptyRawBooking).id = "0.2"
    ∧ processBooking decNone "0.1" emptyRawBooking
        ≠ processBooking decNone "0.2" emptyRawBooking := by
  refine ⟨rfl, rfl, fun h => absurd (congrArg CanonBooking.id h) (by decide)⟩

/-- Claim C4, amended: the normalization is a pure total function of the
raw booking and the sampled random value, and is independent of the
random sample (hence deterministic across runs) exactly when the raw
booking carries a `bookingId`. -/
theorem claim_C4_amended (decode : String → Option (List String)) (r1 r2 : String)
    (b : RawBooking) (i : Int) (h : b.bookingId = some i) :
    processBooking decode r1 b = processBooking decode r2 b := by
  unfold processBooking
  rw [h]

/-- Claim C4, witness: with `bookingId` present, two runs with different
random samples agree. -/
theorem claim_C4_witness :
    ({ emptyRawBooking with bookingId := some 7 } : RawBooking).bookingId = some 7
    ∧ processBooking decNone "0.1" { emptyRawBooking with bookingId := some 7 }
        = processBooking decNone "0.2" { emptyRawBooking with bookingId := some 7 } :=
  ⟨rfl, claim_C4_amended decNone "0.1" "0.2" _ 7 rfl⟩

/-- Claim C5, counterexample: the axios instance created in
`src/api/bookingApi.ts` installs no response interceptor, so a 401 on a
booking call leaves both persisted keys in place — the clearing does not
hold for every API operation. -/
theorem claim_C5_counterexample :
    responseErrorStorage HttpClientInstance.bookingApi 401 ⟨some "u", some "t"⟩
        = ⟨some "u", some "t"⟩
    ∧ (⟨some "u", some "t"⟩ : Storage).token ≠ none
    ∧ (⟨some "u", some "t"⟩ : Storage).user ≠ none := by
  decide

/-- Claim C5, amended: the service module's client clears both persisted
keys on a 401 before the failure is re-thrown and leaves storage alone on
other statuses, while the booking-API client (no response interceptor)
never touches storage on any response status. -/
theorem claim_C5_amended (st : Storage) (status : Nat) :
    responseErrorStorage HttpClientInstance.serviceApi 401 st = ⟨none, none⟩
    ∧ (status ≠ 401 → responseErrorStorage HttpClientInstance.serviceApi status st = st)
    ∧ responseErrorStorage HttpClientInstance.bookingApi status st = st := by
  refine ⟨rfl, ?_, rfl⟩
  intro h
  simp [responseErrorStorage, h]

/-- Claim C5, witness for the amended theorem at status 200. -/
theorem claim_C5_witness :
    (200 : Nat) ≠ 401
    ∧ responseErrorStorage HttpClientInstance.serviceApi 200 ⟨some "u", some "t"⟩
        = ⟨some "u", some "t"⟩ :=
  ⟨by decide, (claim_C5_amended ⟨some "u", some "t"⟩ 200).2.1 (by decide)⟩

/-- Claim C6 (confirmed): when the backend reports no bookings — a
`{bookings: []}` body, a missing `bookings` field, or no data at all —
both list operations return the empty sequence rather than failing. -/
theorem claim_C6 (decode : String → Option (List String)) (rnds : Nat → String) :
    getBookingsData decode rnds (some ⟨some []⟩) = []
    ∧ getBookingsData decode rnds (some ⟨none⟩) = []
    ∧ getBookingsData decode rnds none = []
    ∧ getMyBookingsData decode (some []) = []
    ∧ getMyBookingsData decode none = [] :=
  ⟨rfl, rfl, rfl, rfl, rfl⟩

/-- Claim C7, counterexample: an already-absolute decoded image URL is
not left unchanged by `bookingApi.getBookings` — the asset host is
prefixed unconditionally. -/
theorem claim_C7_counterexample :
    (processBooking decAbs "r" { emptyRawBooking with images := some "imgs" }).venue.images
        = ["https://admin.bookvenue.app/https://x.com/a.jpg"]
    ∧ ["https://admin.bookvenue.app/https://x.com/a.jpg"]
        ≠ (["https://x.com/a.jpg"] : List String) := by
  decide

/-- Claim C7, amended: `bookingApi.getBookings` prefixes the asset host
onto every decoded image path unconditionally (absolute URLs included)
after replacing backslashes with forward slashes; the service module's
`getMyBookings` instead passes paths starting with `http` through
unchanged and prefixes the rest, but performs no backslash
replacement. -/
theorem claim_C7_amended (img s : String) (decode : String → Option (List String))
    (l : List String) :
    resolveImg img = assetHost ++ jsReplaceBackslash img
    ∧ (jsStartsWithHttp img = true → resolveImgMy img = img)
    ∧ (jsStartsWithHttp img = false → resolveImgMy img = assetHost ++ img)
    ∧ (s ≠ "" → decode s = some l → processImages decode (some s) none
        = if (l.map resolveImg).isEmpty then [fallbackImage] else l.map resolveImg)
    ∧ jsReplaceBackslash "img\\a.jpg" = "img/a.jpg"
    ∧ resolveImgMy "img\\a.jpg" = assetHost ++ "img\\a.jpg" := by
  refine ⟨rfl, ?_, ?_, ?_, by decide, by decide⟩
  · intro h
    simp [resolveImgMy, h]
  · intro h
    simp [resolveImgMy, h]
  · intro hs hd
    simp [processImages, hs, hd]

/-- Claim C7, witness: an absolute path passes through the service
resolver, and a successfully decoded list is host-prefixed by the
booking-API pipeline. -/
theorem claim_C7_witness :
    jsStartsWithHttp "http://a" = true
    ∧ resolveImgMy "http://a" = "http://a"
    ∧ ("x" : String) ≠ ""
    ∧ decAbs "x" = some ["https://x.com/a.jpg"]
    ∧ processImages decAbs (some "x") none
        = if ((["https://x.com/a.jpg"].map resolveImg).isEmpty) then [fallbackImage]
          else ["https://x.com/a.jpg"].map resolveImg :=
  ⟨rfl, (claim_C7_amended "http://a" "x" decAbs ["https://x.com/a.jpg"]).2.1 rfl,
    by decide, rfl,
    (claim_C7_amended "http://a" "x" decAbs ["https://x.com/a.jpg"]).2.2.2.1
      (by decide) rfl⟩

/-- Claim C8, counterexample: a non-numeric price string makes
`parseFloat` return `NaN`, so the canonical `totalAmount` for price
`"abc"` is `NaN`, not zero. -/
theorem claim_C8_counterexample :
    (processBooking decNone "r" { emptyRawBooking with price := some "abc" }).totalAmount
        = JsNum.nan
    ∧ JsNum.nan ≠ JsNum.num (mkRat 0 1) := by
  decide

/-- Claim C8, amended: `totalAmount` is `parseFloat(price || '0')`: zero
when the price is missing or empty (the `'0'` default), the parsed value
when the price parses, and `NaN` — not zero — when a non-empty price has
no numeric prefix. -/
theorem claim_C8_amended (decode : String → Option (List String)) (rnd : String)
    (b : RawBooking) (p : String) :
    (processBooking decode rnd b).totalAmount = jsParseFloat (jsOrString b.price "0")
    ∧ (b.price = none →
        (processBooking decode rnd b).totalAmount = JsNum.num (mkRat 0 1))
    ∧ (b.price = some p → p ≠ "" →
        (processBooking decode rnd b).totalAmount = jsParseFloat p)
    ∧ jsParseFloat "0" = JsNum.num (mkRat 0 1)
    ∧ jsParseFloat "abc" = JsNum.nan := by
  refine ⟨rfl, ?_, ?_, by decide, by decide⟩
  · intro h
    show jsParseFloat (jsOrString b.price "0") = _
    rw [h]
    decide
  · intro h hp
    show jsParseFloat (jsOrString b.price "0") = _
    rw [h]
    simp [jsOrString, hp]

/-- Claim C8, witness for the amended theorem at price `"12"`. -/
theorem claim_C8_witness :
    ({ emptyRawBooking with price := some "12" } : RawBooking).price = some "12"
    ∧ ("12" : String) ≠ ""
    ∧ (processBooking decNone "r" { emptyRawBooking with price := some "12" }).totalAmount
        = jsParseFloat "12" :=
  ⟨rfl, by decide,
    (claim_C8_amended decNone "r" { emptyRawBooking with price := some "12" } "12").2.2.1
      rfl (by decide)⟩

/-- Claim C9 (code bug): both `formatTime` implementations leave `HH:MM`
unchanged and truncate `HH:MM:SS`, and the booking-API one passes
unparsable text through; but the bookings-screen one returns the string
`"Invalid Date"` for unparsable input (e.g. `"abc"`), because `new Date`
yields an invalid date instead of throwing and `toLocaleTimeString` then
returns `"Invalid Date"`, leaving the pass-through `catch` branch dead. -/
theorem claim_C9_eval :
    formatTime "14:05" = "14:05"
    ∧ formatTime "14:05:30" = "14:05"
    ∧ formatTime "abc" = "abc"
    ∧ formatTimeScreen (fun _ => none) "14:05" = "14:05"
    ∧ formatTimeScreen (fun _ => none) "14:05:30" = "14:05"
    ∧ formatTimeScreen (fun _ => none) "abc" = "Invalid Date"
    ∧ ("Invalid Date" : String) ≠ "abc" := by
  decide

/-- Claim C10 (confirmed): when a string matches neither time pattern but
`parseInt` extracts an integer from it, the booking-API `formatTime`
returns that integer `toString`-ed, left-padded with zeros to two digits,
with `":00"` appended. -/
theorem claim_C10 (s : String) (n : Int) (h1 : matchHHMM s = false)
    (h2 : matchHHMMSS s = false) (h3 : jsParseInt s = some n) :
    formatTime s = jsPadStart2 (toString n) ++ ":00" := by
  have hne : s ≠ "" := by
    intro he
    rw [he] at h3
    exact Option.noConfusion h3
  simp [formatTime, hne, h1, h2, h3]

/-- Claim C10, witness at `"9"`, which formats to `"09:00"`. -/
theorem claim_C10_witness :
    matchHHMM "9" = false
    ∧ matchHHMMSS "9" = false
    ∧ jsParseInt "9" = some 9
    ∧ formatTime "9" = jsPadStart2 (toString (9 : Int)) ++ ":00" :=
  ⟨by decide, by decide, by decide, claim_C10 "9" 9 (by decide) (by decide) (by decide)⟩
